import Mathlib

/-!
Verification development for the perfume-recommendation chat backend.

The embedding models the two source files:
* `app/(chat)/api/chat/route.ts` (the POST/DELETE request handler), and
* `lib/ai/embeddings.ts` (`generateEmbedding`).

JavaScript values stored in the nullable perfume columns are modelled by the
inductive `JsVal` (JS numbers are modelled as integers; only truthiness and
interpolation of the value matter to the rendered text).  Asynchronous calls
that can fail are modelled as `Except` values supplied by the environment;
database state is passed explicitly.
-/

namespace PerfumeChat

/-- A JSON-ish JavaScript value as it appears in a nullable perfume column. -/
inductive JsVal where
  | null : JsVal
  | str (s : String) : JsVal
  | num (n : Int) : JsVal
  | arr (xs : List String) : JsVal
deriving DecidableEq, Repr

/-- JavaScript truthiness of a `JsVal`: `null`, the empty string and the
number `0` are falsy; every array (even the empty one) is truthy. -/
def JsVal.truthy : JsVal → Bool
  | .null => false
  | .str s => s ≠ ""
  | .num n => n ≠ 0
  | .arr _ => true

/-- JSON.stringify of a `JsVal` (string escaping is not modelled; the column
values contain no quotes). -/
def JsVal.stringify : JsVal → String
  | .null => "null"
  | .str s => "\"" ++ s ++ "\""
  | .num n => toString n
  | .arr xs => "[" ++ String.intercalate "," (xs.map (fun s => "\"" ++ s ++ "\"")) ++ "]"

/-- Template-literal interpolation of a `JsVal`, as in `` `${p.brand}` ``. -/
def JsVal.interp : JsVal → String
  | .null => "null"
  | .str s => s
  | .num n => toString n
  | .arr xs => String.intercalate "," xs

/-- The rendering `Array.isArray(v) ? v.join(", ") : JSON.stringify(v)`
used for the list-like perfume attributes. -/
def JsVal.arrOrStringify : JsVal → String
  | .arr xs => String.intercalate ", " xs
  | v => v.stringify

/-- A perfume row as consumed by the prompt assembler
(`searchPerfumesByEmbedding` result).  `perfume_name` is the non-null name
column; all other attributes are nullable. -/
structure Perfume where
  perfume_name : String
  brand : JsVal
  description : JsVal
  rating : JsVal
  rating_count : JsVal
  notes : JsVal
  season : JsVal
  gender : JsVal
  longevity : JsVal
  sillage : JsVal
  timeOfDay : JsVal
  valueForMoney : JsVal
  pros : JsVal
  cons : JsVal
  similarPerfumes : JsVal
deriving DecidableEq, Repr

/-- The per-item block of the retrieved-perfume context, transcribed from the
template literal in `perfumes.map(...)` of the POST handler. -/
def renderPerfume (p : Perfume) : String :=
  "**" ++ p.perfume_name ++ "**" ++
    (if p.brand.truthy then " (" ++ p.brand.interp ++ ")" else "") ++ "\n" ++
  (if p.description.truthy then "Opis: " ++ p.description.interp ++ "\n" else "") ++
  (if p.rating.truthy then
      "⭐ Ocena: " ++ p.rating.interp ++ "/5" ++
        (if p.rating_count.truthy then " (" ++ p.rating_count.interp ++ " opinii)" else "") ++ "\n"
    else "") ++
  (if p.notes.truthy then "Nuty zapachowe: " ++ p.notes.arrOrStringify ++ "\n" else "") ++
  (if p.season.truthy then "Sezon: " ++ p.season.arrOrStringify ++ "\n" else "") ++
  (if p.gender.truthy then "Dla: " ++ p.gender.arrOrStringify ++ "\n" else "") ++
  (if p.longevity.truthy then "Trwałość: " ++ p.longevity.stringify ++ "\n" else "") ++
  (if p.sillage.truthy then "Sillage: " ++ p.sillage.stringify ++ "\n" else "") ++
  (if p.timeOfDay.truthy then "Pora dnia: " ++ p.timeOfDay.arrOrStringify ++ "\n" else "") ++
  (if p.valueForMoney.truthy then "Stosunek jakości do ceny: " ++ p.valueForMoney.stringify ++ "\n" else "") ++
  (if p.pros.truthy then "Zalety: " ++ p.pros.arrOrStringify ++ "\n" else "") ++
  (if p.cons.truthy then "Wady: " ++ p.cons.arrOrStringify ++ "\n" else "") ++
  (if p.similarPerfumes.truthy then "Podobne perfumy: " ++ p.similarPerfumes.arrOrStringify ++ "\n" else "")

/-- The optional labelled segments of a block, in the source's field order,
each paired with the truthiness guard that decides its presence. -/
def perfumeSegments (p : Perfume) : List (Bool × String) :=
  [ (p.description.truthy, "Opis: " ++ p.description.interp ++ "\n"),
    (p.rating.truthy,
      "⭐ Ocena: " ++ p.rating.interp ++ "/5" ++
        (if p.rating_count.truthy then " (" ++ p.rating_count.interp ++ " opinii)" else "") ++ "\n"),
    (p.notes.truthy, "Nuty zapachowe: " ++ p.notes.arrOrStringify ++ "\n"),
    (p.season.truthy, "Sezon: " ++ p.season.arrOrStringify ++ "\n"),
    (p.gender.truthy, "Dla: " ++ p.gender.arrOrStringify ++ "\n"),
    (p.longevity.truthy, "Trwałość: " ++ p.longevity.stringify ++ "\n"),
    (p.sillage.truthy, "Sillage: " ++ p.sillage.stringify ++ "\n"),
    (p.timeOfDay.truthy, "Pora dnia: " ++ p.timeOfDay.arrOrStringify ++ "\n"),
    (p.valueForMoney.truthy, "Stosunek jakości do ceny: " ++ p.valueForMoney.stringify ++ "\n"),
    (p.pros.truthy, "Zalety: " ++ p.pros.arrOrStringify ++ "\n"),
    (p.cons.truthy, "Wady: " ++ p.cons.arrOrStringify ++ "\n"),
    (p.similarPerfumes.truthy, "Podobne perfumy: " ++ p.similarPerfumes.arrOrStringify ++ "\n") ]

/-- Concatenation of a list of strings (right fold). -/
def concatAll (l : List String) : String := l.foldr (· ++ ·) ""

/-- Specification-shaped rendering of a block: the header line followed by
exactly those labelled segments whose guard holds, in the fixed field order. -/
def renderPerfumeSpec (p : Perfume) : String :=
  "**" ++ p.perfume_name ++ "**" ++
    (if p.brand.truthy then " (" ++ p.brand.interp ++ ")" else "") ++ "\n" ++
  concatAll (((perfumeSegments p).filter (·.1)).map (·.2))

/-- The block separator `"\n\n---\n\n"` used by `join`. -/
def blockSep : String := "\n\n---\n\n"

/-- The retrieved-perfume context: the joined per-item blocks, or the empty
string when no perfume was found (`perfumes.length > 0 ? ... : ""`). -/
def perfumesContext (perfumes : List Perfume) : String :=
  if perfumes.length > 0 then
    String.intercalate blockSep (perfumes.map renderPerfume)
  else ""

/-- The fixed part of the system prompt before the retrieved-context hole. -/
def promptIntro : String :=
  "Jesteś ekspertem w dziedzinie perfum - profesjonalnym asystentem perfumowym z głęboką wiedzą o zapachach, nutach zapachowych, kompozycjach i trendach w świecie perfum.\n\nTwoje zadania:\n1. Pomagasz użytkownikom znaleźć idealne perfumy na podstawie ich preferencji, okazji, budżetu i stylu życia\n2. Wyjaśniasz charakterystykę zapachów, nuty zapachowe i kompozycje\n3. Rekomendujesz perfumy na podstawie podobieństwa, okazji, sezonu i innych kryteriów\n4. Porównujesz perfumy i pomagasz w wyborze\n5. Udzielasz profesjonalnych porad dotyczących aplikacji, przechowywania i pielęgnacji perfum\n\nStyl komunikacji:\n- Bądź profesjonalny, ale przyjazny i przystępny\n- Używaj terminologii perfumeryjnej, ale wyjaśniaj trudne pojęcia\n- Bądź entuzjastyczny, ale obiektywny\n- Zawsze odpowiadaj po polsku\n- Formatuj odpowiedzi w sposób czytelny, używając akapitów i list gdy to pomocne\n\n"

/-- The text put in front of the joined blocks when perfumes were found. -/
def foundIntro : String := "Znalezione perfumy w bazie danych:\n\n"

/-- The instruction following the joined blocks when perfumes were found. -/
def foundOutro : String :=
  "\n\nUżyj tych informacji, aby udzielić szczegółowej i pomocnej odpowiedzi. Jeśli użytkownik pyta o konkretne perfumy, skup się na tych znalezionych w bazie. Jeśli pyta ogólnie, możesz użyć znalezionych perfum jako przykładów lub punktu wyjścia."

/-- The fallback sentence used when the similarity search returned nothing. -/
def notFoundSentence : String :=
  "Nie znaleziono perfum pasujących do zapytania w bazie danych. Odpowiedz pomocnie, sugerując inne podejście do wyszukiwania lub zadaj pytania pomocnicze, aby lepiej zrozumieć potrzeby użytkownika."

/-- The fixed tail of the system prompt. -/
def promptOutro : String :=
  "\n\nPamiętaj: Zawsze odpowiadaj po polsku i bądź pomocny, profesjonalny i entuzjastyczny w temacie perfum."

/-- The assembled system prompt, transcribed from the template literal of the
POST handler. -/
def systemPrompt (perfumes : List Perfume) : String :=
  promptIntro ++
    (if perfumes.length > 0 then
        foundIntro ++ perfumesContext perfumes ++ foundOutro
      else notFoundSentence) ++
  promptOutro

/-- Substring test used to state presence/absence of a marker in a rendered
text (`pat` occurs contiguously in `s`). -/
def strContains (s pat : String) : Bool := decide (pat.data <:+: s.data)

/-! ## Usage reconciliation (`getTokenlensCatalog` and the `onFinish` of `streamText`) -/

/-- Raw token usage reported by the model stream. -/
structure TokenUsage where
  inputTokens : Nat
  outputTokens : Nat
  totalTokens : Nat
deriving DecidableEq, Repr

/-- The external TokenLens model catalog; its contents are opaque to the
handler, which only passes it to `getUsage`. -/
structure ModelCatalog where
  models : List String
deriving DecidableEq, Repr

/-- Cost/summary data produced by the external `getUsage` helper (modelled
abstractly: the handler only spreads it into the merged usage object). -/
structure UsageSummary where
  costInfo : String
deriving DecidableEq, Repr

/-- The merged usage object `{ ...usage, ...summary, modelId }`: the raw
token counts, the optional enrichment summary and the optional model id. -/
structure AppUsage where
  usage : TokenUsage
  summary : Option UsageSummary
  modelId : Option String
deriving DecidableEq, Repr

/-- An `AppUsage` carrying only the raw usage (`finalMergedUsage = usage`). -/
def AppUsage.ofRaw (u : TokenUsage) : AppUsage := ⟨u, none, none⟩

/-- The cached catalog fetch: `fetchModels()` may fail, and the failure is
caught and turned into `undefined` (here `none`). -/
def getTokenlensCatalog (fetchResult : Except Unit ModelCatalog) : Option ModelCatalog :=
  match fetchResult with
  | .ok catalog => some catalog
  | .error _ => none

/-- The usage reconciliation of the `onFinish` callback of `streamText`:
look up the catalog, fall back to the raw usage when the model id is absent,
when the catalog is unavailable, or when `getUsage` throws; otherwise merge
the summary in.  `getUsageFn` models the external `getUsage` helper. -/
def reconcileUsage (usage : TokenUsage) (modelId : Option String)
    (fetchResult : Except Unit ModelCatalog)
    (getUsageFn : String → TokenUsage → ModelCatalog → Except Unit UsageSummary) : AppUsage :=
  let providers := getTokenlensCatalog fetchResult
  match modelId with
  | none => .ofRaw usage
  | some mid =>
    match providers with
    | none => .ofRaw usage
    | some catalog =>
      match getUsageFn mid usage catalog with
      | .error _ => .ofRaw usage
      | .ok summary => ⟨usage, some summary, some mid⟩

/-! ## The embedding client (`lib/ai/embeddings.ts`) -/

/-- One element of the `data` array of the embeddings API response. -/
structure EmbItem where
  embedding : Option (List Int)
deriving DecidableEq, Repr

/-- An HTTP response of the external embeddings endpoint.  `errBody` is the
JSON-parsed error body (`none` when parsing fails, in which case the source
stringifies the placeholder object). -/
structure HttpResp where
  ok : Bool
  status : Nat
  statusText : String
  errBody : Option String
  respData : Option (List EmbItem)
deriving DecidableEq, Repr

/-- The embedding of an embeddings-API response: `data.data?.[0]?.embedding`. -/
def HttpResp.firstEmbedding (r : HttpResp) : Option (List Int) :=
  (r.respData.bind (·.head?)).bind (·.embedding)

/-- The client `generateEmbedding`, transcribed from `lib/ai/embeddings.ts`.
`fetchResp n` is the response to the `n`-th `fetch` the client would issue;
the source performs exactly one.  Every failure is wrapped by the outer
`catch` into a `Failed to generate embedding: ...` message. -/
def generateEmbedding (apiKey : Option String) (fetchResp : Nat → HttpResp) :
    Except String (List Int) :=
  match apiKey with
  | none => .error ("Failed to generate embedding: " ++ "OPENAI_API_KEY is not set")
  | some _ =>
    let r := fetchResp 0
    if r.ok then
      match r.firstEmbedding with
      | some e => .ok e
      | none =>
        .error ("Failed to generate embedding: " ++
          "Failed to generate embedding: no embedding in response")
    else
      .error ("Failed to generate embedding: " ++
        "OpenAI API error: " ++ toString r.status ++ " " ++ r.statusText ++ " - " ++
          (r.errBody.getD "\x7b\x7d"))

/-! ## The resumable-stream context (`getStreamContext`) -/

/-- The context created by `createResumableStreamContext`. -/
structure ResumableStreamContext where
  redisUrl : String
deriving DecidableEq, Repr

/-- The external `createResumableStreamContext`, which throws an error whose
message mentions `REDIS_URL` when that connection string is absent. -/
def createResumableStreamContext (redisUrl : Option String) :
    Except String ResumableStreamContext :=
  match redisUrl with
  | none => .error "resumable-stream: REDIS_URL is not set"
  | some url => .ok ⟨url⟩

/-- The lazily initialised `globalStreamContext`: on failure the error is
logged and swallowed, leaving the context `null`. -/
def getStreamContext (redisUrl : Option String)
    (globalStreamContext : Option ResumableStreamContext) : Option ResumableStreamContext :=
  match globalStreamContext with
  | some ctx => some ctx
  | none =>
    match createResumableStreamContext redisUrl with
    | .ok ctx => some ctx
    | .error _ => none

/-! ## The request handler (`app/(chat)/api/chat/route.ts`) -/

/-- The authenticated user's type, from the auth collaborator. -/
inductive UserType where
  | guest : UserType
  | regular : UserType
deriving DecidableEq, Repr

/-- An authenticated session (`session.user`). -/
structure Session where
  userId : String
  userType : UserType
deriving DecidableEq, Repr

/-- The incoming chat message of the POST payload.  `attachments` carries any
attachments present in the payload; the handler never reads them. -/
structure ChatMessage where
  id : String
  parts : List String
  attachments : List String
deriving DecidableEq, Repr

/-- The schema-validated POST body `{id, message, selectedChatModel,
selectedVisibilityType}`. -/
structure PostRequestBody where
  id : String
  message : ChatMessage
  selectedChatModel : String
  selectedVisibilityType : String
deriving DecidableEq, Repr

/-- A chat row. -/
structure Chat where
  id : String
  userId : String
  title : String
  visibility : String
  lastContext : Option AppUsage
deriving DecidableEq, Repr

/-- A message row as written by `saveMessages`. -/
structure DBMessage where
  chatId : String
  id : String
  role : String
  parts : List String
  attachments : List String
  createdAt : Nat
deriving DecidableEq, Repr

/-- The persistent store: chats, messages and stream ids. -/
structure DBState where
  chats : List Chat
  messages : List DBMessage
  streamIds : List (String × String)
deriving DecidableEq, Repr

/-- Database lookup `getChatById`. -/
def getChatById (id : String) (st : DBState) : Option Chat :=
  st.chats.find? (fun c => c.id == id)

/-- The external `getTextFromMessage` utility (concatenates the text parts). -/
def getTextFromMessage (m : ChatMessage) : String := String.join m.parts

/-- A chunk written to the UI message stream. -/
inductive Chunk where
  | textDelta (delta : String) (id : String) : Chunk
  | dataUsage (u : AppUsage) : Chunk
  | finish : Chunk
  | modelOutput (text : String) : Chunk
deriving DecidableEq, Repr

/-- How the streamed HTTP response is served.  The source's resumable branch
is commented out, so only `plain` is ever produced by `POST`. -/
inductive ServeMode where
  | plain : ServeMode
  | resumable : ServeMode
deriving DecidableEq, Repr

/-- The observable outcome of a POST request: one of the `ChatSDKError`
responses, or the streamed response. -/
inductive PostOutcome where
  | badRequest : PostOutcome
  | unauthorized : PostOutcome
  | rateLimited : PostOutcome
  | forbidden : PostOutcome
  | offline : PostOutcome
  | stream (mode : ServeMode) (chunks : List Chunk) : PostOutcome
deriving DecidableEq, Repr

/-- The environment of one POST request: the parsed body (`none` on a parse
or schema failure), the session (`none` when unauthenticated), the results
returned by the external collaborators, and the environment variables. -/
structure Env where
  requestBody : Option PostRequestBody
  session : Option Session
  messageCount : Nat
  maxMessagesPerDay : UserType → Nat
  genTitle : String
  now : Nat
  streamId : String
  errorChunkId : String
  embedding : Except Unit (List Int)
  search : List Int → Nat → Except Unit (List Perfume)
  modelStream : String → String → List Chunk
  redisUrl : Option String

/-- The message of the in-stream error chunk. -/
def streamErrMsg : String :=
  "Przepraszam, wystąpił błąd podczas wyszukiwania perfum. Spróbuj ponownie."

/-- The chunks the `execute` callback produces: on an embedding or search
failure, the caught error becomes a user-visible text delta plus a finish
chunk; otherwise the model stream for the assembled prompt is merged in. -/
def executeStream (env : Env) (body : PostRequestBody) : List Chunk :=
  let userMessageText := getTextFromMessage body.message
  match env.embedding with
  | .error _ => [.textDelta streamErrMsg env.errorChunkId, .finish]
  | .ok queryEmbedding =>
    match env.search queryEmbedding 5 with
    | .error _ => [.textDelta streamErrMsg env.errorChunkId, .finish]
    | .ok perfumes => env.modelStream (systemPrompt perfumes) userMessageText

/-- The POST handler, transcribed from `route.ts`: parse, authenticate,
rate-limit, check ownership (creating the chat when new), save the user
message, create a stream id, and return the plain streamed response. -/
def POST (env : Env) (st : DBState) : PostOutcome × DBState :=
  match env.requestBody with
  | none => (.badRequest, st)
  | some body =>
    match env.session with
    | none => (.unauthorized, st)
    | some session =>
      if env.messageCount > env.maxMessagesPerDay session.userType then
        (.rateLimited, st)
      else
        let proceed : DBState → PostOutcome × DBState := fun st0 =>
          let st1 : DBState :=
            { st0 with messages := st0.messages ++
                [⟨body.id, body.message.id, "user", body.message.parts, [], env.now⟩] }
          let st2 : DBState :=
            { st1 with streamIds := st1.streamIds ++ [(env.streamId, body.id)] }
          (.stream .plain (executeStream env body), st2)
        match getChatById body.id st with
        | some chat =>
          if chat.userId ≠ session.userId then (.forbidden, st)
          else proceed st
        | none =>
          proceed
            { st with chats := st.chats ++
                [⟨body.id, session.userId, env.genTitle, body.selectedVisibilityType, none⟩] }

/-- A final UI message handed to the stream's `onFinish` callback. -/
structure UIMessage where
  id : String
  role : String
  parts : List String
  attachments : List String
deriving DecidableEq, Repr

/-- Update `lastContext` of the chat `chatId` (`updateChatLastContextById`). -/
def setLastContext (st : DBState) (chatId : String) (u : AppUsage) : DBState :=
  { st with chats := st.chats.map (fun c => if c.id == chatId then { c with lastContext := some u } else c) }

/-- The `onFinish` callback of `createUIMessageStream`: save the final
messages (with empty attachments), then best-effort update the chat's last
usage.  `saveFails`/`updateFails` say whether the two database writes throw;
an `error` result means an exception escapes the callback. -/
def chatOnFinish (st : DBState) (chatId : String) (msgs : List UIMessage)
    (finalMergedUsage : Option AppUsage) (now : Nat)
    (saveFails updateFails : Bool) : Except Unit DBState :=
  if saveFails then .error ()
  else
    let st1 : DBState :=
      { st with messages := st.messages ++
          msgs.map (fun m => ⟨chatId, m.id, m.role, m.parts, [], now⟩) }
    match finalMergedUsage with
    | none => .ok st1
    | some u =>
      if updateFails then .ok st1
      else .ok (setLastContext st1 chatId u)

/-- The observable outcome of a DELETE request. -/
inductive DeleteOutcome where
  | badRequest : DeleteOutcome
  | unauthorized : DeleteOutcome
  | forbidden : DeleteOutcome
  | deleted (chat : Chat) : DeleteOutcome
deriving DecidableEq, Repr

/-- Remove the chat `id` together with its messages and stream ids
(`deleteChatById`). -/
def deleteChatById (id : String) (st : DBState) : DBState :=
  { chats := st.chats.filter (fun c => c.id ≠ id),
    messages := st.messages.filter (fun m => m.chatId ≠ id),
    streamIds := st.streamIds.filter (fun s => s.2 ≠ id) }

/-- The DELETE handler, transcribed from `route.ts`: missing id is a bad
request, a missing session is unauthorized, `chat?.userId !== session.user.id`
(a missing chat included) is forbidden, otherwise the chat is deleted and
returned. -/
def DELETE (idParam : Option String) (session : Option Session) (st : DBState) :
    DeleteOutcome × DBState :=
  match idParam with
  | none => (.badRequest, st)
  | some id =>
    match session with
    | none => (.unauthorized, st)
    | some s =>
      match getChatById id st with
      | none => (.forbidden, st)
      | some chat =>
        if chat.userId ≠ s.userId then (.forbidden, st)
        else (.deleted chat, deleteChatById id st)

/-! ## Concrete fixtures used by witnesses and counterexamples -/

/-- A caller. -/
def sessionA : Session := ⟨"user-a", .regular⟩

/-- The owner of `chatOfB`. -/
def sessionB : Session := ⟨"user-b", .regular⟩

/-- A chat owned by `sessionB`. -/
def chatOfB : Chat := ⟨"chat-1", "user-b", "Perfume talk", "private", none⟩

/-- An incoming message carrying a payload attachment. -/
def msgHello : ChatMessage := ⟨"msg-1", ["Hello"], ["attachment.png"]⟩

/-- A valid POST body targeting `chat-1`. -/
def bodyHello : PostRequestBody := ⟨"chat-1", msgHello, "chat-model", "private"⟩

/-- A store holding only `chatOfB`. -/
def stWithChat : DBState := ⟨[chatOfB], [], []⟩

/-- The empty store. -/
def stEmpty : DBState := ⟨[], [], []⟩

/-- A request environment whose guards all pass. -/
def baseEnv : Env :=
  { requestBody := some bodyHello
    session := some sessionA
    messageCount := 0
    maxMessagesPerDay := fun _ => 100
    genTitle := "Generated title"
    now := 0
    streamId := "stream-1"
    errorChunkId := "err-1"
    embedding := .ok [1, 2]
    search := fun _ _ => .ok []
    modelStream := fun _ _ => [.modelOutput "ok"]
    redisUrl := none }

/-- `baseEnv` without an authenticated session. -/
def envUnauth : Env := { baseEnv with session := none }

/-- `baseEnv` with a caller strictly over the daily quota. -/
def envOverQuota : Env := { baseEnv with messageCount := 3, maxMessagesPerDay := fun _ => 2 }

/-- `baseEnv` with the chat's owner exactly at the daily quota. -/
def envAtQuota : Env :=
  { baseEnv with session := some sessionB, messageCount := 2, maxMessagesPerDay := fun _ => 2 }

/-- `baseEnv` with the chat's owner and a failing embedding call. -/
def envEmbedFail : Env := { baseEnv with session := some sessionB, embedding := .error () }

/-- `baseEnv` with the resumable-stream connection string present. -/
def envRedis : Env := { baseEnv with redisUrl := some "redis://localhost:6379" }

/-- A perfume whose description is the empty string (non-null but falsy). -/
def perfumeEmptyDesc : Perfume :=
  ⟨"Test", .null, .str "", .null, .null, .null, .null, .null, .null, .null, .null, .null,
    .null, .null, .null⟩

/-- A perfume with a few present attributes. -/
def perfumeSimple : Perfume :=
  ⟨"Aventus", .str "Creed", .str "Owocowy i dymny", .num 5, .num 10,
    .arr ["bergamotka", "ananas"], .null, .null, .str "long", .null, .null, .null,
    .null, .null, .null⟩

/-- A raw token usage. -/
def usageRaw : TokenUsage := ⟨10, 20, 30⟩

/-- A failed embeddings-API response. -/
def respFail : HttpResp := ⟨false, 500, "Internal Server Error", some "\"upstream\"", none⟩

/-- A successful embeddings-API response lacking the embedding field. -/
def respNoEmbedding : HttpResp := ⟨true, 200, "OK", none, some []⟩

/-- A successful embeddings-API response. -/
def respGood : HttpResp := ⟨true, 200, "OK", none, some [⟨some [1, 2, 3]⟩]⟩

/-- A final assistant message carrying a payload attachment. -/
def uiMsgA : UIMessage := ⟨"msg-2", "assistant", ["Cześć"], ["leftover.png"]⟩

/-! ## Theorems -/

/-- C2: for every syntactically valid POST payload, an unauthenticated caller
receives the unauthorized outcome and the persistent state is unchanged (no
chat created, no message saved, no stream id created). -/
theorem post_unauthorized_no_persistence (env : Env) (st : DBState)
    (body : PostRequestBody) (hb : env.requestBody = some body)
    (hs : env.session = none) :
    POST env st = (.unauthorized, st) := by
  simp [POST, hb, hs]

/-- Witness for C2 at a concrete request and store. -/
theorem post_unauthorized_no_persistence_witness :
    envUnauth.requestBody = some bodyHello ∧ envUnauth.session = none ∧
    POST envUnauth stWithChat = (.unauthorized, stWithChat) :=
  ⟨rfl, rfl, post_unauthorized_no_persistence envUnauth stWithChat bodyHello rfl rfl⟩

/-- C3 counterexample: a caller whose message count equals the daily quota
(count ≥ quota) is not rate-limited — the source's guard is the strict
`messageCount > maxMessagesPerDay`, so the request streams instead. -/
theorem post_rate_limit_at_quota_counterexample :
    envAtQuota.messageCount ≥ envAtQuota.maxMessagesPerDay UserType.regular ∧
    envAtQuota.session = some sessionB ∧
    (POST envAtQuota stWithChat).1 ≠ PostOutcome.rateLimited := by
  refine ⟨by decide, rfl, ?_⟩
  decide

/-- C3 (amended): for every authenticated caller whose message count in the
last 24 hours is strictly greater than the daily quota for their user type,
the POST operation returns the rate-limited outcome (and leaves the state
unchanged). -/
theorem post_rate_limited_over_quota (env : Env) (st : DBState)
    (body : PostRequestBody) (s : Session) (hb : env.requestBody = some body)
    (hs : env.session = some s)
    (hq : env.messageCount > env.maxMessagesPerDay s.userType) :
    POST env st = (.rateLimited, st) := by
  simp [POST, hb, hs, hq]

/-- Witness for the amended C3 at a concrete request and store. -/
theorem post_rate_limited_over_quota_witness :
    envOverQuota.messageCount > envOverQuota.maxMessagesPerDay sessionA.userType ∧
    POST envOverQuota stWithChat = (.rateLimited, stWithChat) :=
  ⟨by decide,
    post_rate_limited_over_quota envOverQuota stWithChat bodyHello sessionA rfl rfl (by decide)⟩

/-- C1 counterexample: a rate-limited caller appending to a conversation
owned by another user receives the rate-limited outcome, not the forbidden
outcome — the quota guard runs before the ownership check. -/
theorem post_forbidden_counterexample :
    envOverQuota.session = some sessionA ∧
    getChatById bodyHello.id stWithChat = some chatOfB ∧
    chatOfB.userId ≠ sessionA.userId ∧
    (POST envOverQuota stWithChat).1 ≠ PostOutcome.forbidden := by
  refine ⟨rfl, by decide, by decide, by decide⟩

/-- C1 (amended): for every conversation not owned by the authenticated
caller, the append operation — provided the caller is within the daily
message quota — and the delete operation (for which a missing conversation
behaves the same) return the forbidden outcome and leave the persistent
state unchanged. -/
theorem forbidden_not_owner (env : Env) (st : DBState) (body : PostRequestBody)
    (s : Session) (chat : Chat) (hb : env.requestBody = some body)
    (hs : env.session = some s)
    (hq : ¬ env.messageCount > env.maxMessagesPerDay s.userType)
    (hc : getChatById body.id st = some chat) (hown : chat.userId ≠ s.userId) :
    POST env st = (.forbidden, st) ∧
    (∀ (id : String) (s2 : Session) (st2 : DBState) (c2 : Chat),
      getChatById id st2 = some c2 → c2.userId ≠ s2.userId →
        DELETE (some id) (some s2) st2 = (.forbidden, st2)) ∧
    (∀ (id : String) (s2 : Session) (st2 : DBState),
      getChatById id st2 = none →
        DELETE (some id) (some s2) st2 = (.forbidden, st2)) := by
  refine ⟨by simp [POST, hb, hs, hq, hc, hown], ?_, ?_⟩
  · intro id s2 st2 c2 hc2 ho2
    simp [DELETE, hc2, ho2]
  · intro id s2 st2 hc2
    simp [DELETE, hc2]

/-- Witness for the amended C1: a concrete non-owner append and delete, and a
concrete delete of a missing conversation, all yield forbidden unchanged. -/
theorem forbidden_not_owner_witness :
    POST baseEnv stWithChat = (.forbidden, stWithChat) ∧
    DELETE (some "chat-1") (some sessionA) stWithChat = (.forbidden, stWithChat) ∧
    DELETE (some "no-such-chat") (some sessionA) stWithChat = (.forbidden, stWithChat) := by
  obtain ⟨h1, h2, h3⟩ :=
    forbidden_not_owner baseEnv stWithChat bodyHello sessionA chatOfB rfl rfl
      (by decide) (by decide) (by decide)
  exact ⟨h1, h2 "chat-1" sessionA stWithChat chatOfB (by decide) (by decide),
    h3 "no-such-chat" sessionA stWithChat (by decide)⟩

/-- C5: usage reconciliation is total (never aborts the request), the result
always carries the raw token counts, and each fallback tier — model id
absent, catalog unavailable, enrichment throwing — returns the raw usage
unmodified. -/
theorem reconcile_usage_fallbacks (u : TokenUsage) (mid : Option String)
    (fr : Except Unit ModelCatalog)
    (g : String → TokenUsage → ModelCatalog → Except Unit UsageSummary) :
    (reconcileUsage u mid fr g).usage = u ∧
    reconcileUsage u none fr g = .ofRaw u ∧
    (∀ m : String, reconcileUsage u (some m) (.error ()) g = .ofRaw u) ∧
    (∀ (m : String) (c : ModelCatalog), g m u c = .error () →
      reconcileUsage u (some m) (.ok c) g = .ofRaw u) := by
  refine ⟨?_, by simp [reconcileUsage, AppUsage.ofRaw], ?_, ?_⟩
  · rcases mid with _ | m
    · simp [reconcileUsage, AppUsage.ofRaw]
    · rcases fr with e | c
      · simp [reconcileUsage, getTokenlensCatalog, AppUsage.ofRaw]
      · rcases hg : g m u c with e | s <;>
          simp [reconcileUsage, getTokenlensCatalog, hg, AppUsage.ofRaw]
  · intro m
    simp [reconcileUsage, getTokenlensCatalog]
  · intro m c hg
    simp [reconcileUsage, getTokenlensCatalog, hg]

/-- Witness for C5: with a failing catalog fetch and a throwing enrichment,
the reconciler still returns the raw counts in every tier. -/
theorem reconcile_usage_fallbacks_witness :
    reconcileUsage usageRaw none (.error ()) (fun _ _ _ => .error ()) = .ofRaw usageRaw ∧
    reconcileUsage usageRaw (some "gpt-4o") (.error ()) (fun _ _ _ => .error ()) = .ofRaw usageRaw ∧
    reconcileUsage usageRaw (some "gpt-4o") (.ok ⟨["gpt-4o"]⟩) (fun _ _ _ => .error ()) = .ofRaw usageRaw ∧
    (reconcileUsage usageRaw (some "gpt-4o") (.ok ⟨["gpt-4o"]⟩) (fun _ _ _ => .ok ⟨"cost"⟩)).usage = usageRaw :=
  ⟨(reconcile_usage_fallbacks usageRaw none (.error ()) _).2.1,
    (reconcile_usage_fallbacks usageRaw (some "gpt-4o") (.error ()) _).2.2.1 "gpt-4o",
    (reconcile_usage_fallbacks usageRaw (some "gpt-4o") (.ok ⟨["gpt-4o"]⟩) _).2.2.2 "gpt-4o"
      ⟨["gpt-4o"]⟩ rfl,
    (reconcile_usage_fallbacks usageRaw (some "gpt-4o") (.ok ⟨["gpt-4o"]⟩)
      (fun _ _ _ => .ok ⟨"cost"⟩)).1⟩

/-- C6: once the guards pass, the HTTP response is the already-started plain
stream, and a failure of the embedding call or of the similarity search
inside the streaming phase is converted into the user-visible in-stream
error text followed by a finish chunk — not an HTTP-level error outcome. -/
theorem stream_phase_errors_in_stream (env : Env) (st : DBState)
    (body : PostRequestBody) (s : Session) (hb : env.requestBody = some body)
    (hs : env.session = some s)
    (hq : ¬ env.messageCount > env.maxMessagesPerDay s.userType)
    (hown : ∀ c : Chat, getChatById body.id st = some c → c.userId = s.userId) :
    (POST env st).1 = .stream .plain (executeStream env body) ∧
    (env.embedding = .error () →
      executeStream env body = [.textDelta streamErrMsg env.errorChunkId, .finish]) ∧
    (∀ emb : List Int, env.embedding = .ok emb → env.search emb 5 = .error () →
      executeStream env body = [.textDelta streamErrMsg env.errorChunkId, .finish]) := by
  refine ⟨?_, ?_, ?_⟩
  · rcases hc : getChatById body.id st with _ | chat
    · simp [POST, hb, hs, hq, hc]
    · have hcu := hown chat hc
      simp [POST, hb, hs, hq, hc, hcu]
  · intro he
    simp [executeStream, he]
  · intro emb he h5
    simp [executeStream, he, h5]

/-- Witness for C6: a concrete request whose embedding call fails still
receives the plain stream, whose content is the error text plus finish. -/
theorem stream_phase_errors_in_stream_witness :
    (POST envEmbedFail stWithChat).1 = .stream .plain (executeStream envEmbedFail bodyHello) ∧
    executeStream envEmbedFail bodyHello = [.textDelta streamErrMsg "err-1", .finish] := by
  obtain ⟨h1, h2, _⟩ :=
    stream_phase_errors_in_stream envEmbedFail stWithChat bodyHello sessionB rfl rfl
      (by decide)
      (fun c hc => by
        have h0 : getChatById bodyHello.id stWithChat = some chatOfB := by decide
        rw [h0] at hc
        cases hc
        rfl)
  exact ⟨h1, h2 rfl⟩

/-- C7 counterexample: when the `saveMessages` call of the stream's
`onFinish` callback fails, the exception is not caught by the handler — the
failure propagates out of the finalization callback instead of being logged
and swallowed. -/
theorem on_finish_save_failure_counterexample :
    chatOnFinish stWithChat "chat-1" [uiMsgA] none 0 true false = .error () := rfl

/-- C7 (amended): the finalization persistence is best-effort only for the
usage update — when the assistant-message save succeeds, a failure of
`updateChatLastContextById` is logged and swallowed and the callback still
returns normally with the assistant messages appended. -/
theorem on_finish_update_failure_swallowed (st : DBState) (chatId : String)
    (msgs : List UIMessage) (fu : Option AppUsage) (now : Nat) (updateFails : Bool) :
    ∃ st1 : DBState, chatOnFinish st chatId msgs fu now false updateFails = .ok st1 ∧
      st1.messages = st.messages ++
        msgs.map (fun m => ⟨chatId, m.id, m.role, m.parts, [], now⟩) := by
  rcases fu with _ | u
  · exact ⟨_, rfl, rfl⟩
  · cases updateFails
    · exact ⟨_, rfl, rfl⟩
    · exact ⟨_, rfl, rfl⟩

/-- C8 counterexample: even with the resumable-stream connection string
present in the environment, the POST handler returns the plain stream — the
resumable-stream branch of the source is commented out. -/
theorem resumable_when_redis_counterexample :
    envRedis.redisUrl = some "redis://localhost:6379" ∧
    (POST envRedis stEmpty).1 = .stream .plain [.modelOutput "ok"] ∧
    ServeMode.plain ≠ ServeMode.resumable :=
  ⟨rfl, rfl, by decide⟩

/-- C8 (amended): `getStreamContext` creates the resumable-stream context
exactly when the connection string is present (absent → the failure is
swallowed and the feature is silently disabled), but the POST handler never
uses it: every streamed POST response is served as a plain stream. -/
theorem stream_context_and_plain_serving :
    (∀ url : String, getStreamContext (some url) none = some ⟨url⟩) ∧
    getStreamContext none none = none ∧
    (∀ (env : Env) (st : DBState) (mode : ServeMode) (chunks : List Chunk),
      (POST env st).1 = .stream mode chunks → mode = .plain) := by
  refine ⟨fun url => rfl, rfl, ?_⟩
  intro env st mode chunks h
  rcases hb : env.requestBody with _ | body
  · simp [POST, hb] at h
  · rcases hs : env.session with _ | s
    · simp [POST, hb, hs] at h
    · by_cases hq : env.messageCount > env.maxMessagesPerDay s.userType
      · simp [POST, hb, hs, hq] at h
      · rcases hc : getChatById body.id st with _ | chat
        · simp [POST, hb, hs, hq, hc] at h
          exact h.1.symm
        · by_cases ho : chat.userId = s.userId
          · simp [POST, hb, hs, hq, hc, ho] at h
            exact h.1.symm
          · simp [POST, hb, hs, hq, hc, ho] at h

/-- Witness for the amended C8 at concrete environments. -/
theorem stream_context_and_plain_serving_witness :
    getStreamContext (some "redis://localhost:6379") none = some ⟨"redis://localhost:6379"⟩ ∧
    getStreamContext none none = none ∧
    ServeMode.plain = ServeMode.plain :=
  ⟨stream_context_and_plain_serving.1 "redis://localhost:6379",
    stream_context_and_plain_serving.2.1,
    stream_context_and_plain_serving.2.2 baseEnv stEmpty .plain [.modelOutput "ok"] rfl⟩

/-- C9: the embedding client wraps a non-success HTTP response into an error
carrying the upstream status, status text and response body, wraps a missing
embedding field into an error, and issues exactly one fetch — the result
depends only on the first response, so a failure is never retried. -/
theorem generate_embedding_error_wrapping (key : String) (f : Nat → HttpResp) :
    ((f 0).ok = false →
      generateEmbedding (some key) f =
        .error ("Failed to generate embedding: " ++ "OpenAI API error: " ++
          toString (f 0).status ++ " " ++ (f 0).statusText ++ " - " ++
          ((f 0).errBody.getD "\x7b\x7d"))) ∧
    ((f 0).firstEmbedding = none → (f 0).ok = true →
      generateEmbedding (some key) f =
        .error ("Failed to generate embedding: " ++
          "Failed to generate embedding: no embedding in response")) ∧
    (∀ g : Nat → HttpResp, g 0 = f 0 →
      generateEmbedding (some key) g = generateEmbedding (some key) f) := by
  refine ⟨?_, ?_, ?_⟩
  · intro hok
    simp [generateEmbedding, hok]
  · intro hemb hok
    simp [generateEmbedding, hok, hemb]
  · intro g hg
    simp [generateEmbedding, hg]

/-- Witness for C9: concrete failing, embedding-less and successful
responses, the last showing the result ignores every response after the
first. -/
theorem generate_embedding_error_wrapping_witness :
    generateEmbedding (some "sk-test") (fun _ => respFail) =
      .error ("Failed to generate embedding: " ++ "OpenAI API error: " ++
        toString respFail.status ++ " " ++ respFail.statusText ++ " - " ++
        (respFail.errBody.getD "\x7b\x7d")) ∧
    generateEmbedding (some "sk-test") (fun _ => respNoEmbedding) =
      .error ("Failed to generate embedding: " ++
        "Failed to generate embedding: no embedding in response") ∧
    generateEmbedding (some "sk-test") (fun n => if n = 0 then respFail else respGood) =
      generateEmbedding (some "sk-test") (fun _ => respFail) :=
  ⟨(generate_embedding_error_wrapping "sk-test" (fun _ => respFail)).1 rfl,
    (generate_embedding_error_wrapping "sk-test" (fun _ => respNoEmbedding)).2.1 rfl rfl,
    (generate_embedding_error_wrapping "sk-test" (fun _ => respFail)).2.2
      (fun n => if n = 0 then respFail else respGood) rfl⟩

/-- C10: every message row written by the POST handler or by the stream's
`onFinish` callback — user and assistant alike — is stored with an empty
attachments list, regardless of any attachments carried by the payload. -/
theorem persisted_attachments_empty :
    (∀ (env : Env) (st : DBState) (m : DBMessage),
      m ∈ (POST env st).2.messages → m ∈ st.messages ∨ m.attachments = []) ∧
    (∀ (st : DBState) (chatId : String) (msgs : List UIMessage) (fu : Option AppUsage)
        (now : Nat) (sf uf : Bool) (st1 : DBState) (m : DBMessage),
      chatOnFinish st chatId msgs fu now sf uf = .ok st1 →
        m ∈ st1.messages → m ∈ st.messages ∨ m.attachments = []) := by
  constructor
  · intro env st m hm
    rcases hb : env.requestBody with _ | body
    · simp [POST, hb] at hm
      exact .inl hm
    · rcases hs : env.session with _ | s
      · simp [POST, hb, hs] at hm
        exact .inl hm
      · by_cases hq : env.messageCount > env.maxMessagesPerDay s.userType
        · simp [POST, hb, hs, hq] at hm
          exact .inl hm
        · rcases hc : getChatById body.id st with _ | chat
          · simp [POST, hb, hs, hq, hc] at hm
            rcases hm with hm | hm
            · exact .inl hm
            · exact .inr (by simp [hm])
          · by_cases ho : chat.userId = s.userId
            · simp [POST, hb, hs, hq, hc, ho] at hm
              rcases hm with hm | hm
              · exact .inl hm
              · exact .inr (by simp [hm])
            · simp [POST, hb, hs, hq, hc, ho] at hm
              exact .inl hm
  · intro st chatId msgs fu now sf uf st1 m hok hm
    cases sf
    · rcases fu with _ | u
      · simp [chatOnFinish] at hok
        subst hok
        simp at hm
        rcases hm with hm | hm
        · exact .inl hm
        · obtain ⟨a, _, ha⟩ := hm
          exact .inr (by simp [← ha])
      · cases uf
        · simp [chatOnFinish] at hok
          subst hok
          simp [setLastContext] at hm
          rcases hm with hm | hm
          · exact .inl hm
          · obtain ⟨a, _, ha⟩ := hm
            exact .inr (by simp [← ha])
        · simp [chatOnFinish] at hok
          subst hok
          simp at hm
          rcases hm with hm | hm
          · exact .inl hm
          · obtain ⟨a, _, ha⟩ := hm
            exact .inr (by simp [← ha])
    · simp [chatOnFinish] at hok

/-- Witness for C10: the concrete user row and assistant row written in one
request both carry empty attachments, even though the payload attached
files. -/
theorem persisted_attachments_empty_witness :
    ((⟨"chat-1", "msg-1", "user", ["Hello"], [], 0⟩ : DBMessage) ∈ stEmpty.messages ∨
      (⟨"chat-1", "msg-1", "user", ["Hello"], [], 0⟩ : DBMessage).attachments = []) ∧
    ((⟨"chat-1", "msg-2", "assistant", ["Cześć"], [], 5⟩ : DBMessage) ∈ stEmpty.messages ∨
      (⟨"chat-1", "msg-2", "assistant", ["Cześć"], [], 5⟩ : DBMessage).attachments = []) :=
  ⟨persisted_attachments_empty.1 baseEnv stEmpty _ (by decide),
    persisted_attachments_empty.2 stEmpty "chat-1" [uiMsgA] none 5 false false
      ⟨[], [⟨"chat-1", "msg-2", "assistant", ["Cześć"], [], 5⟩], []⟩ _ rfl (by decide)⟩

/-- Unfolding step for the filtered-segment concatenation. -/
theorem concatAll_filter_cons (b : Bool) (s : String) (rest : List (Bool × String)) :
    concatAll ((((b, s) :: rest).filter (·.1)).map (·.2)) =
      (if b then s else "") ++ concatAll ((rest.filter (·.1)).map (·.2)) := by
  cases b <;> simp [concatAll, List.filter_cons, String.empty_append]

/-- The source's if-chain block rendering coincides with the filter-based
rendering of exactly the truthy segments. -/
theorem renderPerfume_eq_spec (p : Perfume) : renderPerfume p = renderPerfumeSpec p := by
  simp only [renderPerfumeSpec, perfumeSegments, concatAll_filter_cons, List.filter_nil,
    List.map_nil]
  simp [renderPerfume, concatAll, String.append_assoc, String.append_empty]

/-- C4 counterexample: a perfume whose description is the empty string — a
non-null attribute — renders to a block that does not contain the
description at all, because the source keeps only truthy attributes. -/
theorem prompt_nonnull_counterexample :
    perfumeEmptyDesc.description ≠ JsVal.null ∧
    renderPerfume perfumeEmptyDesc = "**Test**\n" ∧
    strContains (renderPerfume perfumeEmptyDesc) "Opis:" = false := by
  refine ⟨by decide, by decide, by decide⟩

/-- C4 (amended): prompt assembly is a deterministic function of the
retrieved item list; per item the formatted block contains, in the fixed
field order, exactly the truthy attributes (non-null and, for strings,
non-empty, for numbers, non-zero); the blocks are joined by the fixed
separator inside the fixed instructional template; the empty list yields
the designated fallback sentence instead of an empty context block. -/
theorem prompt_assembly_deterministic :
    (∀ l1 l2 : List Perfume, l1 = l2 → systemPrompt l1 = systemPrompt l2) ∧
    systemPrompt [] = promptIntro ++ notFoundSentence ++ promptOutro ∧
    perfumesContext [] = "" ∧
    (∀ l : List Perfume, l ≠ [] →
      systemPrompt l = promptIntro ++
        (foundIntro ++ String.intercalate blockSep (l.map renderPerfume) ++ foundOutro) ++
        promptOutro) ∧
    (∀ p : Perfume, renderPerfume p = renderPerfumeSpec p) := by
  refine ⟨fun l1 l2 h => by rw [h], by simp [systemPrompt], by simp [perfumesContext],
    ?_, renderPerfume_eq_spec⟩
  intro l hl
  rcases l with _ | ⟨p, rest⟩
  · exact absurd rfl hl
  · simp [systemPrompt, perfumesContext]

/-- Witness for the amended C4 at a concrete item list. -/
theorem prompt_assembly_deterministic_witness :
    systemPrompt [perfumeSimple] = systemPrompt [perfumeSimple] ∧
    systemPrompt [] = promptIntro ++ notFoundSentence ++ promptOutro ∧
    systemPrompt [perfumeSimple] = promptIntro ++
      (foundIntro ++ String.intercalate blockSep ([perfumeSimple].map renderPerfume) ++
        foundOutro) ++ promptOutro ∧
    renderPerfume perfumeSimple = renderPerfumeSpec perfumeSimple :=
  ⟨prompt_assembly_deterministic.1 [perfumeSimple] [perfumeSimple] rfl,
    prompt_assembly_deterministic.2.1,
    prompt_assembly_deterministic.2.2.2.1 [perfumeSimple] (by simp),
    prompt_assembly_deterministic.2.2.2.2 perfumeSimple⟩

end PerfumeChat
